import Mathlib

/-!
Verification of the 3D signed-distance-function algebra of `sdf3.go`
(package `sdf`).  Go `float64` arithmetic is embedded as real arithmetic,
machine `math` functions as their exact real counterparts.  Vector and
matrix helpers from the repository's `internal/d2`, `internal/d3` and
`matrix.go` files (which are not part of the analysed source) are modelled
from the specification, as indicated on each such definition.
-/

noncomputable section

open scoped Classical

namespace SDFGo

/-- 3-vector of reals, embedding gonum `r3.Vec`. -/
structure V3 where
  x : ℝ
  y : ℝ
  z : ℝ

/-- 2-vector of reals, embedding gonum `r2.Vec`. -/
structure V2 where
  x : ℝ
  y : ℝ

/-- gonum `r3.Add`. -/
def r3Add (a b : V3) : V3 := ⟨a.x + b.x, a.y + b.y, a.z + b.z⟩

/-- gonum `r3.Sub`. -/
def r3Sub (a b : V3) : V3 := ⟨a.x - b.x, a.y - b.y, a.z - b.z⟩

/-- gonum `r3.Scale`. -/
def r3Scale (k : ℝ) (v : V3) : V3 := ⟨k * v.x, k * v.y, k * v.z⟩

/-- gonum `r3.Norm`: the Euclidean length of a 3-vector. -/
def r3Norm (v : V3) : ℝ := Real.sqrt (v.x * v.x + v.y * v.y + v.z * v.z)

/-- gonum `r3.Unit`: the unit vector in the direction of `v`. -/
def r3Unit (v : V3) : V3 := r3Scale (1 / r3Norm v) v

/-- Componentwise negation of a 3-vector (the Go expression `r3.Scale(-1, v)`
as used by the spec's phrase "the vector -h"). -/
def r3Neg (v : V3) : V3 := ⟨-v.x, -v.y, -v.z⟩

/-- Componentwise division of a 3-vector by a scalar (the spec's `p / k`). -/
def r3Div (v : V3) (k : ℝ) : V3 := ⟨v.x / k, v.y / k, v.z / k⟩

/-- gonum `r3.Vec.Dot`. -/
def r3Dot (a b : V3) : ℝ := a.x * b.x + a.y * b.y + a.z * b.z

/-- gonum `r2.Add`. -/
def r2Add (a b : V2) : V2 := ⟨a.x + b.x, a.y + b.y⟩

/-- gonum `r2.Vec.Sub`. -/
def r2Sub (a b : V2) : V2 := ⟨a.x - b.x, a.y - b.y⟩

/-- gonum `r2.Scale`. -/
def r2Scale (k : ℝ) (v : V2) : V2 := ⟨k * v.x, k * v.y⟩

/-- gonum `r2.Norm`. -/
def r2Norm (v : V2) : ℝ := Real.sqrt (v.x * v.x + v.y * v.y)

/-- gonum `r2.Unit`. -/
def r2Unit (v : V2) : V2 := r2Scale (1 / r2Norm v) v

/-- gonum `r2.Vec.Dot`. -/
def r2Dot (a b : V2) : ℝ := a.x * b.x + a.y * b.y

/-- Go `math.Hypot`. -/
def hypot (a b : ℝ) : ℝ := Real.sqrt (a * a + b * b)

/-- Modelled from the spec: `internal/d3` helper `AbsElem` (componentwise
absolute value), used by `sdfBox3d` and `Elongate3D`. -/
def d3AbsElem (v : V3) : V3 := ⟨|v.x|, |v.y|, |v.z|⟩

/-- Modelled from the spec: `internal/d3` helper `Max` (largest component). -/
def d3Max (v : V3) : ℝ := max v.x (max v.y v.z)

/-- Modelled from the spec: `internal/d3` helper `LTEZero`, true when some
component of the size vector is `≤ 0` (the spec's "size ≤ 0"). -/
def d3LTEZero (v : V3) : Prop := v.x ≤ 0 ∨ v.y ≤ 0 ∨ v.z ≤ 0

/-- Modelled from the spec: `internal/d3` helper `Elem` (constant vector). -/
def d3Elem (a : ℝ) : V3 := ⟨a, a, a⟩

/-- Modelled from the spec: `internal/d3` helper `MinElem` (componentwise min). -/
def d3MinElem (a b : V3) : V3 := ⟨min a.x b.x, min a.y b.y, min a.z b.z⟩

/-- Modelled from the spec: `internal/d3` helper `MaxElem` (componentwise max). -/
def d3MaxElem (a b : V3) : V3 := ⟨max a.x b.x, max a.y b.y, max a.z b.z⟩

/-- Modelled from the spec: `internal/d3` helper `Clamp` (componentwise clamp
of `p` between `lo` and `hi`). -/
def d3Clamp (p lo hi : V3) : V3 :=
  ⟨min (max p.x lo.x) hi.x, min (max p.y lo.y) hi.y, min (max p.z lo.z) hi.z⟩

/-- Modelled from the spec: `internal/d3` axis-aligned bounding box `d3.Box`,
a `(min, max)` pair of 3-vectors. -/
structure Box3 where
  min : V3
  max : V3

/-- Modelled from the spec: `d3.Box.Extend`, the box union (componentwise
min of mins, max of maxes). -/
def Box3.Extend (a b : Box3) : Box3 := ⟨d3MinElem a.min b.min, d3MaxElem a.max b.max⟩

/-- Modelled from the spec: `d3.Box.Translate`. -/
def Box3.Translate (b : Box3) (v : V3) : Box3 := ⟨r3Add b.min v, r3Add b.max v⟩

/-- Modelled from the spec: `d3.Box.Vertices`, the 8 corners of a box. -/
def Box3.Vertices (b : Box3) : List V3 :=
  [⟨b.min.x, b.min.y, b.min.z⟩, ⟨b.min.x, b.min.y, b.max.z⟩,
   ⟨b.min.x, b.max.y, b.min.z⟩, ⟨b.min.x, b.max.y, b.max.z⟩,
   ⟨b.max.x, b.min.y, b.min.z⟩, ⟨b.max.x, b.min.y, b.max.z⟩,
   ⟨b.max.x, b.max.y, b.min.z⟩, ⟨b.max.x, b.max.y, b.max.z⟩]

/-- Modelled from the spec: `internal/d2` axis-aligned box `d2.Box`. -/
structure Box2 where
  min : V2
  max : V2

/-- Modelled from the spec: `d2.Set.Min`, the componentwise minimum of a
vertex set (folded from its head). -/
def d2SetMin : List V2 → V2
  | [] => ⟨0, 0⟩
  | v :: vs => vs.foldl (fun a b => ⟨min a.x b.x, min a.y b.y⟩) v

/-- Modelled from the spec: `d2.Set.Max`, the componentwise maximum of a
vertex set (folded from its head). -/
def d2SetMax : List V2 → V2
  | [] => ⟨0, 0⟩
  | v :: vs => vs.foldl (fun a b => ⟨max a.x b.x, max a.y b.y⟩) v

/-- Modelled from the spec: the 4x4 affine transform `m44` of `matrix.go`
(not in the analysed source), represented by its linear 3x3 block and its
translation column; the fourth row is the implicit `(0,0,0,1)`. -/
structure m44 where
  a11 : ℝ
  a12 : ℝ
  a13 : ℝ
  a21 : ℝ
  a22 : ℝ
  a23 : ℝ
  a31 : ℝ
  a32 : ℝ
  a33 : ℝ
  t1 : ℝ
  t2 : ℝ
  t3 : ℝ

/-- Modelled from the spec: application of the affine transform to a point. -/
def m44.MulPosition (m : m44) (p : V3) : V3 :=
  ⟨m.a11 * p.x + m.a12 * p.y + m.a13 * p.z + m.t1,
   m.a21 * p.x + m.a22 * p.y + m.a23 * p.z + m.t2,
   m.a31 * p.x + m.a32 * p.y + m.a33 * p.z + m.t3⟩

/-- Determinant of the linear block of an affine transform. -/
def m44.det (m : m44) : ℝ :=
  m.a11 * (m.a22 * m.a33 - m.a23 * m.a32)
    - m.a12 * (m.a21 * m.a33 - m.a23 * m.a31)
    + m.a13 * (m.a21 * m.a32 - m.a22 * m.a31)

/-- Modelled from the spec: `m44.Inverse`, the inverse affine transform
(adjugate over determinant for the linear block, mapped translation). -/
def m44.Inverse (m : m44) : m44 :=
  let d := m.det
  let b11 := (m.a22 * m.a33 - m.a23 * m.a32) / d
  let b12 := (m.a13 * m.a32 - m.a12 * m.a33) / d
  let b13 := (m.a12 * m.a23 - m.a13 * m.a22) / d
  let b21 := (m.a23 * m.a31 - m.a21 * m.a33) / d
  let b22 := (m.a11 * m.a33 - m.a13 * m.a31) / d
  let b23 := (m.a13 * m.a21 - m.a11 * m.a23) / d
  let b31 := (m.a21 * m.a32 - m.a22 * m.a31) / d
  let b32 := (m.a12 * m.a31 - m.a11 * m.a32) / d
  let b33 := (m.a11 * m.a22 - m.a12 * m.a21) / d
  ⟨b11, b12, b13, b21, b22, b23, b31, b32, b33,
   -(b11 * m.t1 + b12 * m.t2 + b13 * m.t3),
   -(b21 * m.t1 + b22 * m.t2 + b23 * m.t3),
   -(b31 * m.t1 + b32 * m.t2 + b33 * m.t3)⟩

/-- Modelled from the spec: `m44.MulBox`, mapping a box through an affine
transform by vertex enumeration plus componentwise min/max. -/
def m44.MulBox (m : m44) (b : Box3) : Box3 :=
  match (Box3.Vertices b).map m.MulPosition with
  | [] => b
  | v :: vs => ⟨vs.foldl d3MinElem v, vs.foldl d3MaxElem v⟩

/-- Modelled from the spec: `Scale3d`, the scaling affine transform. -/
def Scale3d (v : V3) : m44 :=
  ⟨v.x, 0, 0, 0, v.y, 0, 0, 0, v.z, 0, 0, 0⟩

/-- The `SDF3` interface: `Evaluate(p r3.Vec) float64` and
`BoundingBox() d3.Box`, embedded as a record of the two operations. -/
structure SDF3 where
  Evaluate : V3 → ℝ
  BoundingBox : Box3

/-- The external `SDF2` capability: `Evaluate(p r2.Vec) float64` and
`BoundingBox() d2.Box`. -/
structure SDF2 where
  Evaluate : V2 → ℝ
  BoundingBox : Box2

/-- Modelled from the spec: `ErrMsg` produces a descriptive
InvalidParameter-style construction error. -/
def ErrMsg (s : String) : String := s

/-- The constant `pi`. -/
def goPi : ℝ := Real.pi

/-- The constant `tau`. -/
def tau : ℝ := 2 * Real.pi

/-- Go `math.Mod(x, y)` for `x ≥ 0, y > 0` (the only use here is on
`math.Abs(theta)`), i.e. the remainder `x - y*floor(x/y)`. -/
def goMod (x y : ℝ) : ℝ := x - y * (Int.floor (x / y) : ℤ)

/-- `sdfBox3d`: distance to a box of half-extents `s`, by case split on
which axes exceed the half-extent. -/
def sdfBox3d (p s : V3) : ℝ :=
  let d := r3Sub (d3AbsElem p) s
  if d.x > 0 ∧ d.y > 0 ∧ d.z > 0 then r3Norm d
  else if d.x > 0 ∧ d.y > 0 then hypot d.x d.y
  else if d.x > 0 ∧ d.z > 0 then hypot d.x d.z
  else if d.y > 0 ∧ d.z > 0 then hypot d.y d.z
  else if d.x > 0 then d.x
  else if d.y > 0 then d.y
  else if d.z > 0 then d.z
  else d3Max d

/-- Modelled from the spec: `sdfBox2d` of `sdf2.go` (not in the analysed
source), the 2D analog of `sdfBox3d` used by the cylinder evaluator. -/
def sdfBox2d (p s : V2) : ℝ :=
  let d := r2Sub ⟨|p.x|, |p.y|⟩ s
  if d.x > 0 ∧ d.y > 0 then r2Norm d
  else if d.x > 0 then d.x
  else if d.y > 0 then d.y
  else max d.x d.y

/-- `BoxSDF3` is a 3d box. -/
structure BoxSDF3 where
  size : V3
  round : ℝ
  bb : Box3

/-- `BoxSDF3.Evaluate`: minimum distance to a 3d box. -/
def BoxSDF3.Evaluate (s : BoxSDF3) (p : V3) : ℝ := sdfBox3d p s.size - s.round

/-- View a `BoxSDF3` through the `SDF3` interface. -/
def BoxSDF3.toSDF3 (s : BoxSDF3) : SDF3 := ⟨s.Evaluate, s.bb⟩

/-- `Box3D`: SDF3 constructor for a 3d box with optional rounding. -/
def Box3D (size : V3) (round : ℝ) : Except String SDF3 :=
  if d3LTEZero size then .error (ErrMsg "size <= 0")
  else if round < 0 then .error (ErrMsg "round < 0")
  else
    let size2 := r3Scale 0.5 size
    let s : BoxSDF3 :=
      ⟨r3Sub size2 (d3Elem round), round, ⟨r3Scale (-1) size2, size2⟩⟩
    .ok s.toSDF3

/-- `SphereSDF3` is a sphere. -/
structure SphereSDF3 where
  radius : ℝ
  bb : Box3

/-- `SphereSDF3.Evaluate`: minimum distance to a sphere. -/
def SphereSDF3.Evaluate (s : SphereSDF3) (p : V3) : ℝ := r3Norm p - s.radius

/-- View a `SphereSDF3` through the `SDF3` interface. -/
def SphereSDF3.toSDF3 (s : SphereSDF3) : SDF3 := ⟨s.Evaluate, s.bb⟩

/-- `Sphere3D`: SDF3 constructor for a sphere. -/
def Sphere3D (radius : ℝ) : Except String SDF3 :=
  if radius ≤ 0 then .error (ErrMsg "radius <= 0")
  else
    let d : V3 := ⟨radius, radius, radius⟩
    let s : SphereSDF3 := ⟨radius, ⟨r3Scale (-1) d, d⟩⟩
    .ok s.toSDF3

/-- Evaluate the result of a fallible SDF3 constructor at a point. -/
def evalOk (r : Except String SDF3) (p : V3) : Option ℝ :=
  r.toOption.map (fun s => s.Evaluate p)

/-- `CylinderSDF3` is a cylinder. -/
structure CylinderSDF3 where
  height : ℝ
  radius : ℝ
  round : ℝ
  bb : Box3

/-- `CylinderSDF3.Evaluate`: minimum distance to a cylinder. -/
def CylinderSDF3.Evaluate (s : CylinderSDF3) (p : V3) : ℝ :=
  sdfBox2d ⟨r2Norm ⟨p.x, p.y⟩, p.z⟩ ⟨s.radius, s.height⟩ - s.round

/-- View a `CylinderSDF3` through the `SDF3` interface. -/
def CylinderSDF3.toSDF3 (s : CylinderSDF3) : SDF3 := ⟨s.Evaluate, s.bb⟩

/-- `Cylinder3D`: SDF3 constructor for a cylinder with optional rounding. -/
def Cylinder3D (height radius round : ℝ) : Except String SDF3 :=
  if radius ≤ 0 then .error (ErrMsg "radius <= 0")
  else if round < 0 then .error (ErrMsg "round < 0")
  else if round > radius then .error (ErrMsg "round > radius")
  else if height < 2.0 * round then .error (ErrMsg "height < 2 * round")
  else
    let s : CylinderSDF3 :=
      ⟨height / 2 - round, radius - round, round,
       ⟨r3Scale (-1) ⟨radius, radius, height / 2⟩, ⟨radius, radius, height / 2⟩⟩⟩
    .ok s.toSDF3

/-- `ConeSDF3` is a truncated cone. -/
structure ConeSDF3 where
  r0 : ℝ
  r1 : ℝ
  height : ℝ
  round : ℝ
  u : V2
  n : V2
  l : ℝ
  bb : Box3

/-- `ConeSDF3.Evaluate`: minimum distance to a truncated cone, classifying
the query point in radial/axial coordinates into cap, base, interior, slope
and rim-vertex regions. -/
def ConeSDF3.Evaluate (s : ConeSDF3) (p : V3) : ℝ :=
  let p2 : V2 := ⟨hypot p.x p.y, p.z⟩
  if p2.y ≥ s.height ∧ p2.x ≤ s.r1 then p2.y - s.height - s.round
  else if p2.y ≤ -s.height ∧ p2.x ≤ s.r0 then -p2.y - s.height - s.round
  else
    let v := r2Sub p2 ⟨s.r0, -s.height⟩
    let dSlope := r2Dot v s.n
    if dSlope < 0 ∧ |p2.y| < s.height then
      -(min (-dSlope) (s.height - |p2.y|)) - s.round
    else
      let t := r2Dot v s.u
      if t ≥ 0 ∧ t ≤ s.l then dSlope - s.round
      else if t < 0 then r2Norm v - s.round
      else r2Norm (r2Sub p2 ⟨s.r1, s.height⟩) - s.round

/-- View a `ConeSDF3` through the `SDF3` interface. -/
def ConeSDF3.toSDF3 (s : ConeSDF3) : SDF3 := ⟨s.Evaluate, s.bb⟩

/-- `Cone3D`: SDF3 constructor for a truncated cone with optional rounding. -/
def Cone3D (height r0 r1 round : ℝ) : Except String SDF3 :=
  if height ≤ 0 then .error (ErrMsg "height <= 0")
  else if round < 0 then .error (ErrMsg "round < 0")
  else if height < 2.0 * round then .error (ErrMsg "height < 2 * round")
  else
    let sheight := height / 2 - round
    let u := r2Unit (r2Sub ⟨r1, height / 2⟩ ⟨r0, -(height / 2)⟩)
    let n : V2 := ⟨u.y, -u.x⟩
    let ofs := round / n.x
    let sr0 := r0 - (1 + n.y) * ofs
    let sr1 := r1 - (1 - n.y) * ofs
    let l := r2Norm (r2Sub ⟨sr1, sheight⟩ ⟨sr0, -sheight⟩)
    let r := max (sr0 + round) (sr1 + round)
    let s : ConeSDF3 :=
      ⟨sr0, sr1, sheight, round, u, n, l,
       ⟨⟨-r, -r, -(height / 2)⟩, ⟨r, r, height / 2⟩⟩⟩
    .ok s.toSDF3

/-- `SorSDF3`: solid of revolution, SDF2 to SDF3, with partial-revolution
angle `theta` and the precomputed normal to the theta line. -/
structure SorSDF3 where
  sdf : SDF2
  theta : ℝ
  norm : V2
  bb : Box3

/-- `SorSDF3.Evaluate`: minimum distance to a solid of revolution; for a
partial revolution the profile distance is intersected with a wedge built
from two vertical half-plane constraints. -/
def SorSDF3.Evaluate (s : SorSDF3) (p : V3) : ℝ :=
  let x := Real.sqrt (p.x * p.x + p.y * p.y)
  let a := s.sdf.Evaluate ⟨x, p.z⟩
  let b :=
    if s.theta ≠ 0 then
      let d := r2Dot s.norm ⟨p.x, p.y⟩
      if s.theta < goPi then max (-p.y) d else min (-p.y) d
    else a
  max a b

/-- View a `SorSDF3` through the `SDF3` interface. -/
def SorSDF3.toSDF3 (s : SorSDF3) : SDF3 := ⟨s.Evaluate, s.bb⟩

/-- `RevolveTheta3D`: SDF3 constructor for a solid of revolution with a
partial angle; a nil profile yields the `(nil, nil)` result and a negative
angle is rejected. -/
def RevolveTheta3D (sdf : Option SDF2) (theta : ℝ) : Except String (Option SDF3) :=
  match sdf with
  | none => .ok none
  | some sd =>
    if theta < 0 then .error (ErrMsg "theta < 0")
    else
      let th := goMod |theta| tau
      let sn := Real.sin th
      let cs := Real.cos th
      let nrm : V2 := ⟨-sn, cs⟩
      let vset : List V2 :=
        if th = 0 then [⟨1, 1⟩, ⟨-1, -1⟩]
        else
          let v0 : List V2 := [⟨0, 0⟩, ⟨1, 0⟩, ⟨cs, sn⟩]
          let v1 := if th > 0.5 * goPi then v0 ++ [⟨0, 1⟩] else v0
          let v2 := if th > goPi then v1 ++ [⟨-1, 0⟩] else v1
          if th > 1.5 * goPi then v2 ++ [⟨0, -1⟩] else v2
      let bb2 := sd.BoundingBox
      let l := max |bb2.min.x| |bb2.max.x|
      let vmin := r2Scale l (d2SetMin vset)
      let vmax := r2Scale l (d2SetMax vset)
      let s : SorSDF3 :=
        ⟨sd, th, nrm, ⟨⟨vmin.x, vmin.y, bb2.min.y⟩, ⟨vmax.x, vmax.y, bb2.max.y⟩⟩⟩
      .ok (some s.toSDF3)

/-- `TransformSDF3`: an SDF3 transformed with a 4x4 matrix, holding the
precomputed inverse and box. -/
structure TransformSDF3 where
  sdf : SDF3
  matrix : m44
  inverse : m44
  bb : Box3

/-- `TransformSDF3.Evaluate`: delegate at the inverse-mapped point. -/
def TransformSDF3.Evaluate (s : TransformSDF3) (p : V3) : ℝ :=
  s.sdf.Evaluate (s.inverse.MulPosition p)

/-- View a `TransformSDF3` through the `SDF3` interface. -/
def TransformSDF3.toSDF3 (s : TransformSDF3) : SDF3 := ⟨s.Evaluate, s.bb⟩

/-- `Transform3D` applies a transformation matrix to an SDF3. -/
def Transform3D (sdf : SDF3) (matrix : m44) : SDF3 :=
  TransformSDF3.toSDF3
    ⟨sdf, matrix, matrix.Inverse, matrix.MulBox sdf.BoundingBox⟩

/-- `ScaleUniformSDF3`: an SDF3 scaled uniformly in XYZ directions. -/
structure ScaleUniformSDF3 where
  sdf : SDF3
  k : ℝ
  invK : ℝ
  bb : Box3

/-- `ScaleUniformSDF3.Evaluate`: pre-divide the query point, post-multiply
the distance. -/
def ScaleUniformSDF3.Evaluate (s : ScaleUniformSDF3) (p : V3) : ℝ :=
  s.sdf.Evaluate (r3Scale s.invK p) * s.k

/-- View a `ScaleUniformSDF3` through the `SDF3` interface. -/
def ScaleUniformSDF3.toSDF3 (s : ScaleUniformSDF3) : SDF3 := ⟨s.Evaluate, s.bb⟩

/-- `ScaleUniform3D` uniformly scales an SDF3 on all axes. -/
def ScaleUniform3D (sdf : SDF3) (k : ℝ) : SDF3 :=
  let m := Scale3d ⟨k, k, k⟩
  ScaleUniformSDF3.toSDF3 ⟨sdf, k, 1.0 / k, m.MulBox sdf.BoundingBox⟩

/-- `UnionSDF3` is a union of SDF3s with a pluggable blend function. -/
structure UnionSDF3 where
  sdf : List SDF3
  min : ℝ → ℝ → ℝ
  bb : Box3

/-- `UnionSDF3.Evaluate`: left-to-right blend of the children's distances
(the Go loop initialises with the first child's distance). -/
def UnionSDF3.Evaluate (s : UnionSDF3) (p : V3) : ℝ :=
  match s.sdf with
  | [] => 0
  | x :: xs => xs.foldl (fun d t => s.min d (t.Evaluate p)) (x.Evaluate p)

/-- View a `UnionSDF3` through the `SDF3` interface. -/
def UnionSDF3.toSDF3 (s : UnionSDF3) : SDF3 := ⟨s.Evaluate, s.bb⟩

/-- `Union3D`: union of multiple SDF3 objects; nil arguments are stripped,
zero remaining children yield nil, a single child is returned unwrapped. -/
def Union3D (sdf : List (Option SDF3)) : Option SDF3 :=
  if sdf.length = 0 then none
  else
    match sdf.filterMap id with
    | [] => none
    | [x] => some x
    | x :: xs =>
      let bb := (x :: xs).foldl (fun b t => b.Extend t.BoundingBox) x.BoundingBox
      some (UnionSDF3.toSDF3 ⟨x :: xs, fun a b => min a b, bb⟩)

/-- `DifferenceSDF3` is the difference of two SDF3s, `s0 - s1`. -/
structure DifferenceSDF3 where
  s0 : SDF3
  s1 : SDF3
  max : ℝ → ℝ → ℝ
  bb : Box3

/-- `DifferenceSDF3.Evaluate`: blend of the first distance with the negated
second distance. -/
def DifferenceSDF3.Evaluate (s : DifferenceSDF3) (p : V3) : ℝ :=
  s.max (s.s0.Evaluate p) (-(s.s1.Evaluate p))

/-- View a `DifferenceSDF3` through the `SDF3` interface. -/
def DifferenceSDF3.toSDF3 (s : DifferenceSDF3) : SDF3 := ⟨s.Evaluate, s.bb⟩

/-- `Difference3D`: difference of two SDF3s; a nil subtrahend returns the
minuend unchanged, a nil minuend yields nil. -/
def Difference3D (s0 s1 : Option SDF3) : Option SDF3 :=
  match s1 with
  | none => s0
  | some b =>
    match s0 with
    | none => none
    | some a =>
      some (DifferenceSDF3.toSDF3 ⟨a, b, fun u v => max u v, a.BoundingBox⟩)

/-- `ElongateSDF3` is the elongation of an SDF3. -/
structure ElongateSDF3 where
  sdf : SDF3
  hp : V3
  hn : V3
  bb : Box3

/-- `ElongateSDF3.Evaluate`: delegate at the query point translated toward
the origin by a per-axis clamp. -/
def ElongateSDF3.Evaluate (s : ElongateSDF3) (p : V3) : ℝ :=
  s.sdf.Evaluate (r3Sub p (d3Clamp p s.hn s.hp))

/-- View an `ElongateSDF3` through the `SDF3` interface. -/
def ElongateSDF3.toSDF3 (s : ElongateSDF3) : SDF3 := ⟨s.Evaluate, s.bb⟩

/-- `Elongate3D`: elongation of an SDF3, with the elongation vector replaced
by its componentwise absolute value. -/
def Elongate3D (sdf : SDF3) (h : V3) : SDF3 :=
  let ha := d3AbsElem h
  let hp := r3Scale 0.5 ha
  let hn := r3Scale (-0.5) ha
  let bb := sdf.BoundingBox
  let bb0 := bb.Translate hp
  let bb1 := bb.Translate hn
  ElongateSDF3.toSDF3 ⟨sdf, hp, hn, bb0.Extend bb1⟩

/-- `IntersectionSDF3` is the intersection of two SDF3s. -/
structure IntersectionSDF3 where
  s0 : SDF3
  s1 : SDF3
  max : ℝ → ℝ → ℝ
  bb : Box3

/-- `IntersectionSDF3.Evaluate`: blend of the two distances. -/
def IntersectionSDF3.Evaluate (s : IntersectionSDF3) (p : V3) : ℝ :=
  s.max (s.s0.Evaluate p) (s.s1.Evaluate p)

/-- View an `IntersectionSDF3` through the `SDF3` interface. -/
def IntersectionSDF3.toSDF3 (s : IntersectionSDF3) : SDF3 := ⟨s.Evaluate, s.bb⟩

/-- `Intersect3D`: intersection of two SDF3s; the box of the first operand
is reused verbatim (the source's TODO). -/
def Intersect3D (s0 s1 : Option SDF3) : Option SDF3 :=
  match s0, s1 with
  | some a, some b =>
    some (IntersectionSDF3.toSDF3 ⟨a, b, fun u v => max u v, a.BoundingBox⟩)
  | _, _ => none

/-- `CutSDF3` makes a planar cut through an SDF3. -/
structure CutSDF3 where
  sdf : SDF3
  a : V3
  n : V3
  bb : Box3

/-- `CutSDF3.Evaluate`: intersect with the half-space constraint. -/
def CutSDF3.Evaluate (s : CutSDF3) (p : V3) : ℝ :=
  max (r3Dot (r3Sub p s.a) s.n) (s.sdf.Evaluate p)

/-- View a `CutSDF3` through the `SDF3` interface. -/
def CutSDF3.toSDF3 (s : CutSDF3) : SDF3 := ⟨s.Evaluate, s.bb⟩

/-- `Cut3D` cuts an SDF3 along the plane through `a` with normal `n`; the
child's box is left unmodified (the source's TODO). -/
def Cut3D (sdf : SDF3) (a n : V3) : SDF3 :=
  CutSDF3.toSDF3 ⟨sdf, a, r3Scale (-1) (r3Unit n), sdf.BoundingBox⟩

/-- A concrete SDF3 test object with bounding box `[-1,1]^3`, used as a
sample child for the combinator theorems. -/
def testSDF3 : SDF3 :=
  ⟨fun p => p.x + 2 * p.y + p.z, ⟨⟨-1, -1, -1⟩, ⟨1, 1, 1⟩⟩⟩

/-- A concrete SDF2 test profile, used as a sample profile for the solid of
revolution theorems. -/
def testSDF2 : SDF2 :=
  ⟨fun q => q.x, ⟨⟨-1, -1⟩, ⟨1, 1⟩⟩⟩

/-- The shear transform `x ↦ x + y`, an invertible affine matrix with unit
determinant. -/
def shearM : m44 := ⟨1, 1, 0, 0, 1, 0, 0, 0, 1, 0, 0, 0⟩

/-- Evaluate a solid of revolution built from a non-nil profile at a point,
extracting through the fallible constructor. -/
def evalRevolve (f : SDF2) (theta : ℝ) (p : V3) : Option ℝ :=
  match RevolveTheta3D (some f) theta with
  | .ok (some s) => some (s.Evaluate p)
  | _ => none

attribute [ext] V3 V2 Box3

set_option maxHeartbeats 2000000 in
/-- The determinant of the modelled affine inverse is the reciprocal of the
original determinant. -/
lemma m44.det_Inverse (m : m44) (hd : m.det ≠ 0) : m.Inverse.det = 1 / m.det := by
  have hd' : m.a11 * (m.a22 * m.a33 - m.a23 * m.a32)
      - m.a12 * (m.a21 * m.a33 - m.a23 * m.a31)
      + m.a13 * (m.a21 * m.a32 - m.a22 * m.a31) ≠ 0 := hd
  simp only [m44.Inverse, m44.det]
  field_simp
  ring

set_option maxHeartbeats 2000000 in
/-- Applying a transform after its inverse returns the original point. -/
lemma m44.mulPosition_Inverse_cancel (m : m44) (hd : m.det ≠ 0) (q : V3) :
    m.MulPosition (m.Inverse.MulPosition q) = q := by
  have hd' : m.a11 * (m.a22 * m.a33 - m.a23 * m.a32)
      - m.a12 * (m.a21 * m.a33 - m.a23 * m.a31)
      + m.a13 * (m.a21 * m.a32 - m.a22 * m.a31) ≠ 0 := hd
  ext <;> simp only [m44.Inverse, m44.MulPosition, m44.det] <;> field_simp <;> ring

/-- C1: for every SDF3 `sdf`, scale factor `k > 0` and point `p`,
`ScaleUniform3D(sdf, k).Evaluate(p)` equals `k * sdf.Evaluate(p / k)`. -/
theorem scaleUniform3D_eval (sdf : SDF3) (k : ℝ) (p : V3) (hk : 0 < k) :
    (ScaleUniform3D sdf k).Evaluate p = k * sdf.Evaluate (r3Div p k) := by
  have hv : r3Scale (1.0 / k) p = r3Div p k := by
    ext <;> simp [r3Scale, r3Div] <;> ring
  simp only [ScaleUniform3D, ScaleUniformSDF3.toSDF3, ScaleUniformSDF3.Evaluate, hv]
  exact mul_comm _ _

/-- Witness for C1 at `k = 2`, `p = (1,2,3)` on a concrete SDF3. -/
theorem scaleUniform3D_eval_witness :
    (0 : ℝ) < 2 ∧ (ScaleUniform3D testSDF3 2).Evaluate ⟨1, 2, 3⟩
      = 2 * testSDF3.Evaluate (r3Div ⟨1, 2, 3⟩ 2) :=
  ⟨by norm_num, scaleUniform3D_eval testSDF3 2 ⟨1, 2, 3⟩ (by norm_num)⟩

/-- C2 counterexample: `Cone3D` accepts a base radius `≤ 0` and `Box3D`
accepts a rounding radius exceeding its dimensions, in both cases returning
an SDF3 value, so the claimed validation does not hold for every primitive
constructor. -/
theorem primitive_validation_counterexample :
    ((-1 : ℝ) ≤ 0 ∧ (Cone3D 2 (-1) 1 0).toOption.isSome = true) ∧
    ((100 : ℝ) > 2 ∧ (Box3D ⟨2, 2, 2⟩ 100).toOption.isSome = true) := by
  refine ⟨⟨by norm_num, ?_⟩, ⟨by norm_num, ?_⟩⟩
  · rw [Cone3D, if_neg (by norm_num), if_neg (by norm_num), if_neg (by norm_num)]
    rfl
  · rw [Box3D, if_neg (by norm_num [d3LTEZero]), if_neg (by norm_num)]
    rfl

/-- C2 (amended): each primitive constructor fails exactly on the inputs its
own validation rejects: `Box3D` iff some size component is `≤ 0` or
`round < 0` (round is never checked against the dimensions); `Sphere3D` iff
`radius ≤ 0`; `Cylinder3D` iff `radius ≤ 0`, `round < 0`, `round > radius`
or `height < 2*round`; `Cone3D` iff `height ≤ 0`, `round < 0` or
`height < 2*round` (its radii are never checked). -/
theorem primitive_constructor_validation (size : V3) (h r r0 r1 rd : ℝ) :
    ((Box3D size rd).toOption = none ↔
      ((size.x ≤ 0 ∨ size.y ≤ 0 ∨ size.z ≤ 0) ∨ rd < 0)) ∧
    ((Sphere3D r).toOption = none ↔ r ≤ 0) ∧
    ((Cylinder3D h r rd).toOption = none ↔
      (r ≤ 0 ∨ rd < 0 ∨ rd > r ∨ h < 2.0 * rd)) ∧
    ((Cone3D h r0 r1 rd).toOption = none ↔
      (h ≤ 0 ∨ rd < 0 ∨ h < 2.0 * rd)) := by
  refine ⟨?_, ?_, ?_, ?_⟩
  · rw [Box3D]
    split_ifs <;> simp_all [d3LTEZero, Except.toOption]
  · rw [Sphere3D]
    split_ifs <;> simp_all [Except.toOption]
  · rw [Cylinder3D]
    split_ifs <;> simp_all [Except.toOption]
  · rw [Cone3D]
    split_ifs <;> simp_all [Except.toOption]

/-- C3: `Union3D` with zero arguments returns nil, and `Union3D` of a single
SDF3 returns that SDF3 itself, unwrapped. -/
theorem union3D_empty_singleton (A : SDF3) :
    Union3D [] = none ∧ Union3D [some A] = some A := by
  constructor
  · simp [Union3D]
  · simp [Union3D]

/-- C4: `Difference3D` returns the minuend unchanged when the subtrahend is
nil, returns nil when the minuend is nil, and otherwise evaluates to
`max(A.Evaluate(p), -B.Evaluate(p))` under the default blend function. -/
theorem difference3D_spec (A B : SDF3) (p : V3) :
    Difference3D (some A) none = some A ∧
    Difference3D none (some B) = none ∧
    (Difference3D (some A) (some B)).map (fun s => s.Evaluate p)
      = some (max (A.Evaluate p) (-(B.Evaluate p))) := by
  refine ⟨rfl, rfl, ?_⟩
  simp [Difference3D, DifferenceSDF3.toSDF3, DifferenceSDF3.Evaluate]

/-- C5 counterexample: transforming a box-bounded SDF3 by a shear and then
by the shear's inverse does not return the original bounding box — the
vertex-mapped box grows, so the round-trip bounding box differs from the
original already in its min corner. -/
theorem transform3D_roundtrip_bb_counterexample :
    ((Transform3D (Transform3D testSDF3 shearM) shearM.Inverse).BoundingBox).min.x
      ≠ (testSDF3.BoundingBox).min.x := by
  norm_num [Transform3D, TransformSDF3.toSDF3, testSDF3, shearM, m44.Inverse,
    m44.det, m44.MulBox, Box3.Vertices, m44.MulPosition, d3MinElem, d3MaxElem,
    min_def, max_def]

/-- C5 (amended): composing `Transform3D(sdf, M)` with
`Transform3D(·, M.Inverse())` yields the original distance at every point
for every invertible matrix; the bounding box, recomputed by mapping corner
vertices, need not equal the original. -/
theorem transform3D_roundtrip_eval (sdf : SDF3) (M : m44) (p : V3)
    (hd : M.det ≠ 0) :
    (Transform3D (Transform3D sdf M) M.Inverse).Evaluate p = sdf.Evaluate p := by
  have hdi : M.Inverse.det ≠ 0 := by
    rw [m44.det_Inverse M hd]
    exact one_div_ne_zero hd
  show sdf.Evaluate (M.Inverse.MulPosition (M.Inverse.Inverse.MulPosition p)) = _
  rw [m44.mulPosition_Inverse_cancel M.Inverse hdi p]

/-- Witness for C5 (amended) at the shear matrix and the point (1,2,3). -/
theorem transform3D_roundtrip_eval_witness :
    shearM.det ≠ 0 ∧
    (Transform3D (Transform3D testSDF3 shearM) shearM.Inverse).Evaluate ⟨1, 2, 3⟩
      = testSDF3.Evaluate ⟨1, 2, 3⟩ := by
  have hd : shearM.det ≠ 0 := by norm_num [shearM, m44.det]
  exact ⟨hd, transform3D_roundtrip_eval testSDF3 shearM ⟨1, 2, 3⟩ hd⟩

/-- C6: the box `Box3D({2,2,2}, 0)` evaluates to -1 at the center, 0 on a
face and 1 one unit outside the face. -/
theorem box3D_concrete :
    evalOk (Box3D ⟨2, 2, 2⟩ 0) ⟨0, 0, 0⟩ = some (-1) ∧
    evalOk (Box3D ⟨2, 2, 2⟩ 0) ⟨1, 0, 0⟩ = some 0 ∧
    evalOk (Box3D ⟨2, 2, 2⟩ 0) ⟨2, 0, 0⟩ = some 1 := by
  norm_num [evalOk, Box3D, d3LTEZero, BoxSDF3.toSDF3, BoxSDF3.Evaluate, sdfBox3d,
    r3Scale, r3Sub, d3AbsElem, d3Elem, d3Max, r3Norm, hypot, Except.toOption,
    max_def]

/-- C7: for every accepted radius `r > 0` and point `p`, the sphere's
distance is exactly `‖p‖ - r`. -/
theorem sphere3D_eval (r : ℝ) (p : V3) (hr : 0 < r) :
    evalOk (Sphere3D r) p = some (r3Norm p - r) := by
  rw [Sphere3D, if_neg (not_le.mpr hr)]
  rfl

/-- Witness for C7: `Sphere3D(1).Evaluate((3,4,0)) = 4`. -/
theorem sphere3D_eval_witness :
    (0 : ℝ) < 1 ∧ evalOk (Sphere3D 1) ⟨3, 4, 0⟩ = some 4 := by
  refine ⟨by norm_num, (sphere3D_eval 1 ⟨3, 4, 0⟩ (by norm_num)).trans ?_⟩
  have h5 : r3Norm ⟨3, 4, 0⟩ = 5 := by
    rw [r3Norm, show (3 : ℝ) * 3 + 4 * 4 + 0 * 0 = 5 ^ 2 by norm_num]
    exact Real.sqrt_sq (by norm_num)
  rw [h5]
  norm_num

/-- C8: for a nonnegative revolve angle, the solid of revolution evaluates
to the profile distance at `(√(x²+y²), z)` intersected (max) with a wedge:
for normalized angle `θ < π` the wedge is the intersection (max) of `-y`
and the projection onto the precomputed boundary normal, for `θ ≥ π` their
union (min), and for `θ = 0` the profile distance alone. -/
theorem revolveTheta3D_eval (f : SDF2) (theta : ℝ) (p : V3) (hθ : 0 ≤ theta) :
    evalRevolve f theta p =
      some (
        let th := goMod |theta| tau
        let a := f.Evaluate ⟨Real.sqrt (p.x * p.x + p.y * p.y), p.z⟩
        let d := r2Dot ⟨-Real.sin th, Real.cos th⟩ ⟨p.x, p.y⟩
        if th = 0 then a
        else if th < goPi then max a (max (-p.y) d)
        else max a (min (-p.y) d)) := by
  rw [evalRevolve]
  simp only [RevolveTheta3D, if_neg (not_lt.mpr hθ)]
  by_cases h0 : goMod |theta| tau = 0
  · simp [SorSDF3.toSDF3, SorSDF3.Evaluate, h0, max_self]
  · by_cases hpi : goMod |theta| tau < goPi
    · simp [SorSDF3.toSDF3, SorSDF3.Evaluate, h0, hpi]
    · simp [SorSDF3.toSDF3, SorSDF3.Evaluate, h0, hpi]

/-- Witness for C8 at angle 0 (full revolution): the x-coordinate profile
revolved evaluates to the radial distance 5 at (3,4,0). -/
theorem revolveTheta3D_eval_witness :
    (0 : ℝ) ≤ 0 ∧ evalRevolve testSDF2 0 ⟨3, 4, 0⟩ = some 5 := by
  refine ⟨le_refl 0, (revolveTheta3D_eval testSDF2 0 ⟨3, 4, 0⟩ (le_refl 0)).trans ?_⟩
  have h0 : goMod |(0 : ℝ)| tau = 0 := by
    simp [goMod]
  simp only [h0, if_pos rfl, testSDF2]
  rw [show (3 : ℝ) * 3 + 4 * 4 = 5 ^ 2 by norm_num, Real.sqrt_sq (by norm_num)]
  simp

/-- C9: `Intersect3D` of two non-nil SDF3s and `Cut3D` both reuse the first
operand's bounding box verbatim, without tightening it. -/
theorem intersect3D_cut3D_bb (A B sdf : SDF3) (a n : V3) :
    (Intersect3D (some A) (some B)).map (fun s => s.BoundingBox)
      = some A.BoundingBox ∧
    (Cut3D sdf a n).BoundingBox = sdf.BoundingBox :=
  ⟨rfl, rfl⟩

/-- C10: elongation is insensitive to the sign of the elongation vector —
`Elongate3D(sdf, h)` and `Elongate3D(sdf, -h)` evaluate identically at
every point and have the same bounding box, because the constructor takes
the componentwise absolute value of `h`. -/
theorem elongate3D_neg (sdf : SDF3) (v p : V3) :
    (Elongate3D sdf v).Evaluate p = (Elongate3D sdf (r3Neg v)).Evaluate p ∧
    (Elongate3D sdf v).BoundingBox = (Elongate3D sdf (r3Neg v)).BoundingBox := by
  have habs : d3AbsElem (r3Neg v) = d3AbsElem v := by
    simp [d3AbsElem, r3Neg, abs_neg]
  constructor <;> simp [Elongate3D, ElongateSDF3.toSDF3, habs]

end SDFGo
